import Mathlib

/-!
Verification of the e-commerce order processor (`app.py`).

The development shallowly embeds the pure content of the source: the catalog
(`ProductDatabase`), the three platform parsers (Shopee free-text regex
parsing, Tokopedia fixed-offset rows, TikTok positional rows), per-line
classification against the catalog, and the cross-file aggregation done in
`main`.  Spreadsheet cells are modelled by an explicit `Cell` type; numeric
cell values are exact decimals (`Dec`), and the specific regular expressions
of the source are implemented as character-list scanners with `re.search`
semantics.
-/

namespace OrderProcessor

/-! ### String utilities with Python `str` semantics, over `List Char` -/

/-- Test whether the first list is a prefix of the second. -/
def isPre : List Char → List Char → Bool
  | [], _ => true
  | _ :: _, [] => false
  | a :: as, b :: bs => a == b && isPre as bs

/-- Substring containment: Python `pat in text`. -/
def containsSub : List Char → List Char → Bool
  | pat, [] => pat.isEmpty
  | pat, c :: rest => isPre pat (c :: rest) || containsSub pat rest

/-- Strict code-point lexicographic order on char lists (Python string `<`). -/
def lexLt : List Char → List Char → Bool
  | [], [] => false
  | [], _ :: _ => true
  | _ :: _, [] => false
  | a :: as, b :: bs => if a < b then true else if b < a then false else lexLt as bs

/-- Code-point lexicographic order on char lists (Python string `<=`); this is
the string comparison pandas uses when sorting a string column. -/
def lexLe : List Char → List Char → Bool
  | [], _ => true
  | _ :: _, [] => false
  | a :: as, b :: bs => if a < b then true else if b < a then false else lexLe as bs

/-- Drop the characters satisfying `p` from both ends. -/
def stripChars (p : Char → Bool) (l : List Char) : List Char :=
  ((l.dropWhile p).reverse.dropWhile p).reverse

/-- Python `str.strip()`: remove whitespace from both ends. -/
def pyStrip (s : String) : String := ⟨stripChars Char.isWhitespace s.data⟩

/-- Python `str.strip("'")`: remove apostrophes from both ends. -/
def stripQuotes (s : String) : String := ⟨stripChars (fun c => c == '\'') s.data⟩

/-- Value of a digit string, Python `int("...")` on a digits-only string. -/
def digitsVal (ds : List Char) : Nat :=
  ds.foldl (fun a c => 10 * a + (c.toNat - '0'.toNat)) 0

/-- String comparison used for pandas ascending sorts on string columns. -/
def strLeB (a b : String) : Bool := lexLe a.data b.data

/-! ### Exact decimal numbers: the values produced by numeric coercion -/

/-- An exact decimal number `mant / 10 ^ exp`; models the numeric values a
spreadsheet cell or `pd.to_numeric` can produce (the claims never exercise
values outside exact decimals). -/
structure Dec where
  mant : Int
  exp : Nat
deriving DecidableEq

/-- Division of `a` by `b`, truncating toward zero — Python `int(x)` on a
number `a / b`. -/
def tdiv0 (a : Int) (b : Nat) : Int :=
  if 0 ≤ a then ((a.toNat / b : Nat) : Int) else -(((-a).toNat / b : Nat) : Int)

/-- Truncated integer part of a decimal: Python `int(float(x))`. -/
def truncDec (d : Dec) : Int := tdiv0 d.mant (10 ^ d.exp)

/-- Parse an unsigned decimal literal `digits[.digits]`: at least one digit
overall, nothing may follow. -/
def parseUnsigned (l : List Char) : Option Dec :=
  let ip := l.takeWhile Char.isDigit
  match l.dropWhile Char.isDigit with
  | [] => if ip.isEmpty then none else some ⟨(digitsVal ip : Int), 0⟩
  | '.' :: r2 =>
    let fp := r2.takeWhile Char.isDigit
    if (r2.dropWhile Char.isDigit).isEmpty && !(ip.isEmpty && fp.isEmpty) then
      some ⟨((digitsVal ip * 10 ^ fp.length + digitsVal fp : Nat) : Int), fp.length⟩
    else none
  | _ => none

/-- Model of `pd.to_numeric(x, errors="coerce")` on a string: strip
whitespace, optional sign, decimal literal; everything else is uncoercible
(becomes `NaN`, here `none`).  Exponent/infinity literals are not modelled. -/
def parseDecimal (s : String) : Option Dec :=
  match stripChars Char.isWhitespace s.data with
  | '-' :: rest => (parseUnsigned rest).map (fun d => ⟨-d.mant, d.exp⟩)
  | '+' :: rest => parseUnsigned rest
  | l => parseUnsigned l

/-! ### Spreadsheet cells -/

/-- A cell as produced by `pandas.read_excel`: a text cell, a numeric cell, or
a blank cell read as NA (with default `na_filter`; under `na_filter=False`
blanks arrive as `str ""` instead). -/
inductive Cell where
  | str (s : String)
  | num (d : Dec)
  | blank
deriving DecidableEq

/-- Decimal string of an integer (Python `str` on an int). -/
def intStr (n : Int) : String :=
  if 0 ≤ n then ⟨Nat.toDigits 10 n.toNat⟩ else ⟨'-' :: Nat.toDigits 10 (-n).toNat⟩

/-- Python `str(x)` of a cell value.  `astype(str)` turns a blank (NaN) cell
into `"nan"`.  The rendering of non-integral numeric cells is a placeholder:
no claim stringifies a fractional numeric cell. -/
def cellToString : Cell → String
  | .str s => s
  | .num d => if d.exp = 0 then intStr d.mant else intStr d.mant ++ "e-" ++ intStr ((d.exp : Int))
  | .blank => "nan"

/-- `pd.to_numeric(errors="coerce")` on a cell. -/
def toNumericOpt : Cell → Option Dec
  | .str s => parseDecimal s
  | .num d => some d
  | .blank => none

/-! ### ProductDatabase (`app.py` lines 17-32) -/

/-- `self.data`: the catalog mapping as an association list of
(SKU, product name); keys were already stringified by the loader
(`df.iloc[:, 0].astype(str)`). -/
abbrev Catalog := List (String × String)

/-- Python `dict` lookup on the catalog.  Catalog keys are unique in practice;
for duplicate keys Python keeps the last binding while this model keeps the
first — no claim depends on duplicate keys. -/
def dbLookup (db : Catalog) (sku : String) : Option String :=
  (db.find? (fun e => e.1 == sku)).map (fun e => e.2)

/-- `ProductDatabase.get_product_name`: `self.data.get(str(sku), "Unknown")`
(every caller passes a `str`, so `str(sku)` is `sku` itself). -/
def get_product_name (db : Catalog) (sku : String) : String :=
  (dbLookup db sku).getD "Unknown"

/-- `ProductDatabase.is_valid_sku`: `str(sku) in self.data`. -/
def is_valid_sku (db : Catalog) (sku : String) : Bool :=
  (dbLookup db sku).isSome

/-- `ProductDatabase.__init__` (lines 18-26): a successful load yields the
loaded mapping; any exception degrades to the empty mapping. -/
def initDatabase : Except String Catalog → Catalog
  | .ok d => d
  | .error _ => []

/-! ### Shopee free-text parsing (`app.py` lines 34-114) -/

/-- `ShopeeProduct` dataclass (lines 34-39). -/
structure ShopeeProduct where
  nama_produk : String
  nama_variasi : String
  jumlah : Int
  sku : String
deriving DecidableEq

/-- Scanner for `re.search(label + "(cls+)", item)` where `cls` is a character
class (`[^;]` for the name fields, `\d` for the quantity): succeed at the
first position where the label occurs followed by at least one class
character; the capture is the maximal class run after the label. -/
def searchCapture (label : List Char) (cls : Char → Bool) : List Char → Option (List Char)
  | [] => none
  | c :: rest =>
    if isPre label (c :: rest) then
      let grp := ((c :: rest).drop label.length).takeWhile cls
      if grp.isEmpty then searchCapture label cls rest else some grp
    else searchCapture label cls rest

/-- Scanner for `re.search(r"Nomor Referensi SKU: ?([^;]*);", item)`: after
the label an optional single space is consumed greedily; the capture is
everything up to the next `;`, which must exist, otherwise the scan
advances past this occurrence of the label. -/
def searchSku (label : List Char) : List Char → Option (List Char)
  | [] => none
  | c :: rest =>
    if isPre label (c :: rest) then
      let after := (c :: rest).drop label.length
      let after2 := if after.head? == some ' ' then after.tail else after
      if after2.contains ';' then some (after2.takeWhile (fun x => x != ';'))
      else searchSku label rest
    else searchSku label rest

def namaProdukLabel : List Char := "Nama Produk:".data

def namaVariasiLabel : List Char := "Nama Variasi:".data

def jumlahLabel : List Char := "Jumlah: ".data

def skuLabel : List Char := "Nomor Referensi SKU:".data

/-- Match `\[\d+\]` at the head of the list; on success return the remainder
after the marker. -/
def matchMarker : List Char → Option (List Char)
  | '[' :: rest =>
    match rest.dropWhile Char.isDigit with
    | ']' :: tail => if (rest.takeWhile Char.isDigit).isEmpty then none else some tail
    | _ => none
  | _ => none

/-- First occurrence of the item-index marker: on success,
`some (prefix before it, suffix after it)`. -/
def findMarker : List Char → Option (List Char × List Char)
  | [] => none
  | c :: rest =>
    match matchMarker (c :: rest) with
    | some tail => some ([], tail)
    | none =>
      match findMarker rest with
      | some (pre, tail) => some (c :: pre, tail)
      | none => none

/-- `re.split(r"\[\d+\]", text)`, fuelled to keep the recursion structural;
each marker consumes at least three characters, so fuel = text length always
suffices. -/
def markerSplitFuel : Nat → List Char → List (List Char)
  | 0, l => [l]
  | fuel + 1, l =>
    match findMarker l with
    | none => [l]
    | some (pre, tail) => pre :: markerSplitFuel fuel tail

/-- `re.split(r"\[\d+\]", text)`. -/
def markerSplit (l : List Char) : List (List Char) :=
  markerSplitFuel l.length l

/-- The item-splitting step of `parse_product_info` (lines 48-52): the text is
split only when the literal substring `"[1]"` occurs in it. -/
def splitItems (text : String) : List String :=
  if containsSub "[1]".data text.data then
    ((markerSplit text.data).map (fun l => pyStrip ⟨l⟩)).filter (fun s => s != "")
  else [text]

/-- The same step as the specification words it: split whenever the bracketed
numeric marker pattern occurs anywhere in the text. -/
def splitItemsSpec (text : String) : List String :=
  if (findMarker text.data).isSome then
    ((markerSplit text.data).map (fun l => pyStrip ⟨l⟩)).filter (fun s => s != "")
  else [text]

/-- Lines 54-71 of `parse_product_info`: extract the four labelled fields from
one item; a product is produced exactly when product name, variant name and
quantity all matched, the SKU capture being optional (empty when absent).
The `int()` call on the digit capture cannot raise, so the `except` branch
is unreachable. -/
def parseSegment (item : String) : Option ShopeeProduct :=
  match searchCapture namaProdukLabel (fun x => x != ';') item.data,
        searchCapture namaVariasiLabel (fun x => x != ';') item.data,
        searchCapture jumlahLabel Char.isDigit item.data with
  | some np, some nv, some ds =>
    some ⟨pyStrip ⟨np⟩, pyStrip ⟨nv⟩, (digitsVal ds : Int),
          match searchSku skuLabel item.data with
          | some g => pyStrip ⟨g⟩
          | none => ""⟩
  | _, _, _ => none

/-- `ShopeeProcessor.parse_product_info` (lines 45-73). -/
def parse_product_info (text : String) : List ShopeeProduct :=
  (splitItems text).filterMap parseSegment

/-- An invalid Shopee record `{Nama Produk, Nama Variasi, Jumlah}`
(lines 89-93): it never carries the SKU. -/
structure ShopeeInvalid where
  nama_produk : String
  nama_variasi : String
  jumlah : Int
deriving DecidableEq

/-- A valid classified record `{Kode SKU, Nama Produk, Jumlah}`, the shape
shared by all three processors and by the aggregation step; the product
name is the catalog's display name. -/
structure ValidLine where
  sku : String
  name : String
  qty : Int
deriving DecidableEq

/-- Lines 87-99: classify one parsed Shopee product against the catalog
(`if not product.sku or not is_valid_sku(...)`). -/
def classifyShopee (db : Catalog) (p : ShopeeProduct) : Sum ValidLine ShopeeInvalid :=
  if p.sku = "" ∨ is_valid_sku db p.sku = false then
    .inr ⟨p.nama_produk, p.nama_variasi, p.jumlah⟩
  else
    .inl ⟨p.sku, get_product_name db p.sku, p.jumlah⟩

/-! ### TikTok positional parsing (`app.py` lines 166-224) -/

/-- Line 183: `str(x).strip().strip("'")`. -/
def tiktokCleanSku (c : Cell) : String := stripQuotes (pyStrip (cellToString c))

/-- Lines 184 and 193-196: `pd.to_numeric(..., errors="coerce").fillna(0)`
followed by `int(float(...))`; after the coercion the `except: jumlah = 0`
branch is unreachable. -/
def tiktokJumlah (c : Cell) : Int := truncDec ((toNumericOpt c).getD ⟨0, 0⟩)

/-- An invalid TikTok record `{Nama Produk, Variasi Produk, Jumlah}`
(lines 204-209): it never carries the SKU.  The name cells are passed
through as raw cell values. -/
structure TikTokInvalid where
  nama_produk : Cell
  variasi : Cell
  jumlah : Int
deriving DecidableEq

/-- Lines 198-209: classify one TikTok row whose fields are already cleaned. -/
def tiktokClassify (db : Catalog) (sku : String) (nama variasi : Cell)
    (jumlah : Int) : Sum ValidLine TikTokInvalid :=
  if is_valid_sku db sku then .inl ⟨sku, get_product_name db sku, jumlah⟩
  else .inr ⟨nama, variasi, jumlah⟩

/-- One spreadsheet row through lines 175-209: columns 6, 7, 8, 9 hold SKU,
product name, variant, quantity.  The file is read with
`header=None, na_filter=False`, so absent cells arrive as empty strings. -/
def tiktokRow (db : Catalog) (row : List Cell) : Sum ValidLine TikTokInvalid :=
  tiktokClassify db
    (tiktokCleanSku (row.getD 6 (.str "")))
    (row.getD 7 (.str ""))
    (row.getD 8 (.str ""))
    (tiktokJumlah (row.getD 9 (.str "")))

/-- Relation of `valid_df.sort_values("Kode SKU")`. -/
def skuLeLine (a b : ValidLine) : Prop := strLeB a.sku b.sku = true

instance : DecidableRel skuLeLine := fun a b =>
  inferInstanceAs (Decidable (strLeB a.sku b.sku = true))

/-- `sort_values("Kode SKU")`, modelled as a stable sort.  (pandas' default
sort kind is unstable; every list this model sorts in a claim is shown to be
already sorted by SKU, where every correct sort is the identity.) -/
def sortValidBySku (l : List ValidLine) : List ValidLine :=
  List.insertionSort skuLeLine l

/-- Relation of `invalid_df.sort_values("Nama Produk")` for TikTok records,
whose name field is a raw cell (pandas compares the cell values; mixed-type
columns, which raise in pandas, are outside the model). -/
def tiktokInvLe (a b : TikTokInvalid) : Prop :=
  strLeB (cellToString a.nama_produk) (cellToString b.nama_produk) = true

instance : DecidableRel tiktokInvLe := fun a b =>
  inferInstanceAs (Decidable (strLeB (cellToString a.nama_produk) (cellToString b.nama_produk) = true))

/-- Left component of a classification outcome. -/
def sumLeft {A B : Type} : Sum A B → Option A
  | .inl v => some v
  | .inr _ => none

/-- Right component of a classification outcome. -/
def sumRight {A B : Type} : Sum A B → Option B
  | .inl _ => none
  | .inr i => some i

/-- `TikTokProcessor.process_file` on already-read rows (lines 170-224):
drop the first two rows, classify every remaining row in order, then sort
the valid records by SKU and the invalid ones by product name. -/
def tiktokProcess (db : Catalog) (file : List (List Cell)) :
    List ValidLine × List TikTokInvalid :=
  let results := (file.drop 2).map (tiktokRow db)
  (sortValidBySku (results.filterMap sumLeft),
   List.insertionSort tiktokInvLe (results.filterMap sumRight))

/-! ### Tokopedia fixed-offset parsing (`app.py` lines 116-164) -/

/-- Line 127: `fillna("")`. -/
def fillNaEmpty : Cell → Cell
  | .blank => .str ""
  | c => c

/-- Lines 127-129: `fillna("")`, `astype(str).str.strip()`, then truncate at
the first `.` when the string contains one. -/
def tokoCleanSku (c : Cell) : String :=
  let s := pyStrip (cellToString (fillNaEmpty c))
  if s.data.contains '.' then ⟨s.data.takeWhile (fun x => x != '.')⟩ else s

/-- A valid Tokopedia record (lines 140-144): the quantity cell is passed
through as-is, with no numeric coercion. -/
structure TokoValid where
  sku : String
  name : String
  jumlah : Cell
deriving DecidableEq

/-- An invalid Tokopedia record `{Nama Produk, Jumlah}` (lines 146-149). -/
structure TokoInvalid where
  nama_produk : Cell
  jumlah : Cell
deriving DecidableEq

/-- Lines 134-149: classify one Tokopedia row; both branches carry the raw
quantity cell unchanged. -/
def tokoClassify (db : Catalog) (skuCell namaCell jumlahCell : Cell) :
    Sum TokoValid TokoInvalid :=
  let sku := tokoCleanSku skuCell
  if is_valid_sku db sku then .inl ⟨sku, get_product_name db sku, jumlahCell⟩
  else .inr ⟨namaCell, jumlahCell⟩

/-- Quantity cell carried by a classified Tokopedia record. -/
def tokoJumlahOf : Sum TokoValid TokoInvalid → Cell
  | .inl v => v.jumlah
  | .inr i => i.jumlah

/-! ### Aggregation (`main`, lines 373-377 and 406-411) -/

/-- The groupby key of a valid record. -/
def keyOf (l : ValidLine) : String × String := (l.sku, l.name)

/-- Groupby key order: tuple-lexicographic on (SKU, product name), which is
how pandas orders the groups of `groupby(["Kode SKU", "Nama Produk"])`. -/
def keyLe (a b : String × String) : Bool :=
  lexLt a.1.data b.1.data || (a.1 == b.1 && lexLe a.2.data b.2.data)

/-- `keyLe` as a relation. -/
def keyR (a b : String × String) : Prop := keyLe a b = true

instance : DecidableRel keyR := fun a b =>
  inferInstanceAs (Decidable (keyLe a b = true))

/-- Total quantity of the lines sharing a given (SKU, name) key. -/
def totalQty (ls : List ValidLine) (k : String × String) : Int :=
  ((ls.filter (fun l => decide (keyOf l = k))).map ValidLine.qty).sum

/-- `groupby(["Kode SKU", "Nama Produk"])["Jumlah"].sum().reset_index()`
(lines 376 and 410): one row per distinct key carrying the group's quantity
sum, rows ordered by the key (pandas sorts the group keys). -/
def aggregate_valid (ls : List ValidLine) : List ValidLine :=
  (List.insertionSort keyR ((ls.map keyOf).dedup)).map
    (fun k => ⟨k.1, k.2, totalQty ls k⟩)

/-- Lines 406-411: concatenate the per-file summaries, regroup and sum, then
`sort_values("Kode SKU")`. -/
def merge_batch (perFile : List (List ValidLine)) : List ValidLine :=
  sortValidBySku (aggregate_valid perFile.flatten)

/-! ### Laws of the lexicographic orders -/

theorem lexLt_cons_iff (a b : Char) (as bs : List Char) :
    lexLt (a :: as) (b :: bs) = true ↔ (a < b ∨ (a = b ∧ lexLt as bs = true)) := by
  rcases lt_trichotomy a b with h | h | h
  · simp [lexLt, h]
  · subst h
    simp [lexLt, lt_irrefl]
  · simp [lexLt, h, lt_asymm h, ne_of_gt h]

theorem lexLe_cons_iff (a b : Char) (as bs : List Char) :
    lexLe (a :: as) (b :: bs) = true ↔ (a < b ∨ (a = b ∧ lexLe as bs = true)) := by
  rcases lt_trichotomy a b with h | h | h
  · simp [lexLe, h]
  · subst h
    simp [lexLe, lt_irrefl]
  · simp [lexLe, h, lt_asymm h, ne_of_gt h]

theorem lexLe_iff_lt_or_eq : ∀ x y : List Char, lexLe x y = true ↔ (lexLt x y = true ∨ x = y) := by
  intro x
  induction x with
  | nil =>
    intro y
    cases y <;> simp [lexLe, lexLt]
  | cons a as ih =>
    intro y
    cases y with
    | nil => simp [lexLe, lexLt]
    | cons b bs =>
      rw [lexLe_cons_iff, lexLt_cons_iff]
      simp only [List.cons.injEq, ih bs]
      tauto

theorem lexLt_trans : ∀ x y z : List Char,
    lexLt x y = true → lexLt y z = true → lexLt x z = true := by
  intro x
  induction x with
  | nil =>
    intro y z hxy hyz
    cases y with
    | nil => simp [lexLt] at hxy
    | cons b bs =>
      cases z with
      | nil => simp [lexLt] at hyz
      | cons c cs => simp [lexLt]
  | cons a as ih =>
    intro y z hxy hyz
    cases y with
    | nil => simp [lexLt] at hxy
    | cons b bs =>
      cases z with
      | nil => simp [lexLt] at hyz
      | cons c cs =>
        rw [lexLt_cons_iff] at hxy hyz ⊢
        rcases hxy with h1 | ⟨rfl, h1⟩
        · rcases hyz with h2 | ⟨rfl, h2⟩
          · exact Or.inl (lt_trans h1 h2)
          · exact Or.inl h1
        · rcases hyz with h2 | ⟨rfl, h2⟩
          · exact Or.inl h2
          · exact Or.inr ⟨rfl, ih bs cs h1 h2⟩

theorem lexLt_asymm : ∀ x y : List Char, lexLt x y = true → lexLt y x = true → False := by
  intro x
  induction x with
  | nil =>
    intro y hxy hyx
    cases y with
    | nil => simp [lexLt] at hxy
    | cons b bs => simp [lexLt] at hyx
  | cons a as ih =>
    intro y hxy hyx
    cases y with
    | nil => simp [lexLt] at hxy
    | cons b bs =>
      rw [lexLt_cons_iff] at hxy hyx
      rcases hxy with h1 | ⟨rfl, h1⟩
      · rcases hyx with h2 | ⟨he, h2⟩
        · exact lt_asymm h1 h2
        · exact absurd h1 (by simp [he])
      · rcases hyx with h2 | ⟨he, h2⟩
        · exact lt_irrefl a h2
        · exact ih bs h1 h2

theorem lexLt_irrefl (x : List Char) : lexLt x x = true → False :=
  fun h => lexLt_asymm x x h h

theorem lexLt_trichot : ∀ x y : List Char,
    lexLt x y = true ∨ lexLt y x = true ∨ x = y := by
  intro x
  induction x with
  | nil =>
    intro y
    cases y <;> simp [lexLt]
  | cons a as ih =>
    intro y
    cases y with
    | nil => simp [lexLt]
    | cons b bs =>
      rcases lt_trichotomy a b with h | h | h
      · exact Or.inl ((lexLt_cons_iff _ _ _ _).mpr (Or.inl h))
      · subst h
        rcases ih bs with h1 | h1 | h1
        · exact Or.inl ((lexLt_cons_iff _ _ _ _).mpr (Or.inr ⟨rfl, h1⟩))
        · exact Or.inr (Or.inl ((lexLt_cons_iff _ _ _ _).mpr (Or.inr ⟨rfl, h1⟩)))
        · exact Or.inr (Or.inr (by rw [h1]))
      · exact Or.inr (Or.inl ((lexLt_cons_iff _ _ _ _).mpr (Or.inl h)))

theorem lexLe_refl (x : List Char) : lexLe x x = true :=
  (lexLe_iff_lt_or_eq x x).mpr (Or.inr rfl)

theorem lexLe_total (x y : List Char) : lexLe x y = true ∨ lexLe y x = true := by
  rcases lexLt_trichot x y with h | h | h
  · exact Or.inl ((lexLe_iff_lt_or_eq x y).mpr (Or.inl h))
  · exact Or.inr ((lexLe_iff_lt_or_eq y x).mpr (Or.inl h))
  · exact Or.inl ((lexLe_iff_lt_or_eq x y).mpr (Or.inr h))

theorem lexLe_trans {x y z : List Char}
    (hxy : lexLe x y = true) (hyz : lexLe y z = true) : lexLe x z = true := by
  rw [lexLe_iff_lt_or_eq] at hxy hyz ⊢
  rcases hxy with h1 | rfl
  · rcases hyz with h2 | rfl
    · exact Or.inl (lexLt_trans _ _ _ h1 h2)
    · exact Or.inl h1
  · exact hyz

theorem lexLe_antisymm {x y : List Char}
    (hxy : lexLe x y = true) (hyx : lexLe y x = true) : x = y := by
  rw [lexLe_iff_lt_or_eq] at hxy hyx
  rcases hxy with h1 | rfl
  · rcases hyx with h2 | rfl
    · exact absurd h2 (fun h2 => lexLt_asymm _ _ h1 h2)
    · rfl
  · rfl

theorem keyR_iff (a b : String × String) :
    keyR a b ↔ (lexLt a.1.data b.1.data = true ∨ (a.1 = b.1 ∧ lexLe a.2.data b.2.data = true)) := by
  simp [keyR, keyLe]

instance : IsTotal (String × String) keyR := by
  constructor
  intro a b
  rcases lexLt_trichot a.1.data b.1.data with h | h | h
  · exact Or.inl ((keyR_iff a b).mpr (Or.inl h))
  · exact Or.inr ((keyR_iff b a).mpr (Or.inl h))
  · have he : a.1 = b.1 := String.ext_iff.mpr h
    rcases lexLe_total a.2.data b.2.data with h2 | h2
    · exact Or.inl ((keyR_iff a b).mpr (Or.inr ⟨he, h2⟩))
    · exact Or.inr ((keyR_iff b a).mpr (Or.inr ⟨he.symm, h2⟩))

instance : IsTrans (String × String) keyR := by
  constructor
  intro a b c hab hbc
  rw [keyR_iff] at hab hbc ⊢
  rcases hab with h1 | ⟨he1, h1⟩
  · rcases hbc with h2 | ⟨he2, h2⟩
    · exact Or.inl (lexLt_trans _ _ _ h1 h2)
    · exact Or.inl (by rw [← he2]; exact h1)
  · rcases hbc with h2 | ⟨he2, h2⟩
    · exact Or.inl (by rw [he1]; exact h2)
    · exact Or.inr ⟨he1.trans he2, lexLe_trans h1 h2⟩

instance : IsAntisymm (String × String) keyR := by
  constructor
  intro a b hab hba
  rw [keyR_iff] at hab hba
  rcases hab with h1 | ⟨he1, h1⟩
  · rcases hba with h2 | ⟨he2, h2⟩
    · exact absurd h2 (fun h2 => lexLt_asymm _ _ h1 h2)
    · exact absurd h1 (by rw [he2]; exact fun h => lexLt_irrefl _ h)
  · rcases hba with h2 | ⟨he2, h2⟩
    · exact absurd h2 (by rw [he1]; exact fun h => lexLt_irrefl _ h)
    · exact Prod.ext he1 (String.ext_iff.mpr (lexLe_antisymm h1 h2))

instance : IsTotal ValidLine skuLeLine := by
  constructor
  intro a b
  exact lexLe_total a.sku.data b.sku.data

instance : IsTrans ValidLine skuLeLine := by
  constructor
  intro a b c hab hbc
  exact lexLe_trans hab hbc

theorem keyR_to_sku {k k' : String × String} (h : keyR k k') :
    strLeB k.1 k'.1 = true := by
  rw [keyR_iff] at h
  rcases h with h | ⟨he, _⟩
  · exact (lexLe_iff_lt_or_eq _ _).mpr (Or.inl h)
  · rw [he]
    exact lexLe_refl _

/-! ### Aggregation lemmas -/

theorem keyOf_mk (k : String × String) (q : Int) :
    keyOf ⟨k.1, k.2, q⟩ = k := by
  simp [keyOf]

theorem aggregate_map_keyOf (ls : List ValidLine) :
    (aggregate_valid ls).map keyOf = List.insertionSort keyR ((ls.map keyOf).dedup) := by
  unfold aggregate_valid
  rw [List.map_map]
  exact (List.map_congr_left (fun k _ => keyOf_mk k _)).trans (List.map_id _)

theorem nodup_keys_aggregate (ls : List ValidLine) :
    ((aggregate_valid ls).map keyOf).Nodup := by
  rw [aggregate_map_keyOf]
  exact (List.perm_insertionSort keyR _).nodup_iff.mpr (List.nodup_dedup _)

theorem mem_keys_aggregate (ls : List ValidLine) (k : String × String) :
    k ∈ (aggregate_valid ls).map keyOf ↔ k ∈ ls.map keyOf := by
  rw [aggregate_map_keyOf, (List.perm_insertionSort keyR _).mem_iff]
  exact List.mem_dedup

theorem totalQty_append (A B : List ValidLine) (k : String × String) :
    totalQty (A ++ B) k = totalQty A k + totalQty B k := by
  simp [totalQty, List.filter_append]

theorem totalQty_eq_zero {ls : List ValidLine} {k : String × String}
    (h : k ∉ ls.map keyOf) : totalQty ls k = 0 := by
  have he : ls.filter (fun l => decide (keyOf l = k)) = [] := by
    rw [List.filter_eq_nil_iff]
    intro l hl
    simp only [decide_eq_true_eq]
    exact fun hk => h (List.mem_map.mpr ⟨l, hl, hk⟩)
  simp [totalQty, he]

theorem filter_nodup_single {α : Type} [DecidableEq α] :
    ∀ (S : List α), S.Nodup → ∀ k ∈ S, S.filter (fun x => decide (x = k)) = [k] := by
  intro S
  induction S with
  | nil => intro _ k hk; cases hk
  | cons a S ih =>
    intro hnd k hk
    have hnd2 := List.nodup_cons.mp hnd
    rcases List.mem_cons.mp hk with rfl | hk2
    · have : S.filter (fun x => decide (x = k)) = [] := by
        rw [List.filter_eq_nil_iff]
        intro x hx
        simp only [decide_eq_true_eq]
        exact fun he => hnd2.1 (he ▸ hx)
      simp [List.filter_cons, this]
    · have hne : (a = k) = False := by
        simp only [eq_iff_iff, iff_false]
        exact fun he => hnd2.1 (he ▸ hk2)
      simp [List.filter_cons, hne, ih hnd2.2 k hk2]

theorem totalQty_map_mk (S : List (String × String)) (hnd : S.Nodup)
    (g : String × String → Int) (k : String × String) :
    totalQty (S.map (fun k2 => ⟨k2.1, k2.2, g k2⟩)) k = if k ∈ S then g k else 0 := by
  unfold totalQty
  rw [List.filter_map]
  have hp : ((fun l => decide (keyOf l = k)) ∘ (fun k2 => (⟨k2.1, k2.2, g k2⟩ : ValidLine)))
      = fun k2 => decide (k2 = k) := by
    funext k2
    simp [Function.comp, keyOf]
  rw [hp]
  by_cases hk : k ∈ S
  · rw [filter_nodup_single S hnd k hk]
    simp [hk]
  · have he : S.filter (fun k2 => decide (k2 = k)) = [] := by
      rw [List.filter_eq_nil_iff]
      intro x hx
      simp only [decide_eq_true_eq]
      exact fun he => hk (he ▸ hx)
    rw [he]
    simp [hk]

theorem totalQty_aggregate (ls : List ValidLine) (k : String × String) :
    totalQty (aggregate_valid ls) k = totalQty ls k := by
  have hnd : (List.insertionSort keyR ((ls.map keyOf).dedup)).Nodup :=
    (List.perm_insertionSort keyR _).nodup_iff.mpr (List.nodup_dedup _)
  unfold aggregate_valid
  rw [totalQty_map_mk _ hnd (totalQty ls) k]
  by_cases hk : k ∈ List.insertionSort keyR ((ls.map keyOf).dedup)
  · simp [hk]
  · have hz : k ∉ ls.map keyOf := by
      rw [← List.mem_dedup, ← (List.perm_insertionSort keyR _).mem_iff]
      exact hk
    simp [hk, totalQty_eq_zero hz]

theorem aggregate_congr {X Y : List ValidLine}
    (hm : ∀ k, k ∈ X.map keyOf ↔ k ∈ Y.map keyOf)
    (ht : ∀ k, totalQty X k = totalQty Y k) :
    aggregate_valid X = aggregate_valid Y := by
  unfold aggregate_valid
  have hS : List.insertionSort keyR ((X.map keyOf).dedup)
      = List.insertionSort keyR ((Y.map keyOf).dedup) := by
    apply List.eq_of_perm_of_sorted (r := keyR)
    · have hp : (X.map keyOf).dedup.Perm (Y.map keyOf).dedup := by
        rw [List.perm_ext_iff_of_nodup (List.nodup_dedup _) (List.nodup_dedup _)]
        intro a
        rw [List.mem_dedup, List.mem_dedup]
        exact hm a
      exact (List.perm_insertionSort _ _).trans (hp.trans (List.perm_insertionSort _ _).symm)
    · exact List.sorted_insertionSort _ _
    · exact List.sorted_insertionSort _ _
  rw [hS]
  exact List.map_congr_left (fun k _ => by rw [ht k])

theorem sorted_sku_aggregate (ls : List ValidLine) :
    List.Sorted skuLeLine (aggregate_valid ls) := by
  unfold aggregate_valid
  exact List.Pairwise.map _ (fun a b hab => keyR_to_sku hab)
    (List.sorted_insertionSort keyR _)

theorem sortValidBySku_aggregate (ls : List ValidLine) :
    sortValidBySku (aggregate_valid ls) = aggregate_valid ls :=
  List.Sorted.insertionSort_eq (sorted_sku_aggregate ls)

theorem aggregate_of_aggregates (A B : List ValidLine) :
    aggregate_valid (aggregate_valid A ++ aggregate_valid B) = aggregate_valid (A ++ B) := by
  apply aggregate_congr
  · intro k
    simp only [List.map_append, List.mem_append, mem_keys_aggregate]
  · intro k
    rw [totalQty_append, totalQty_append, totalQty_aggregate, totalQty_aggregate]

/-! ### Parser lemmas -/

theorem isPre_iff : ∀ (p l : List Char), isPre p l = true ↔ ∃ t, l = p ++ t := by
  intro p
  induction p with
  | nil =>
    intro l
    simp [isPre]
  | cons a as ih =>
    intro l
    cases l with
    | nil =>
      simp [isPre]
    | cons b bs =>
      simp only [isPre, Bool.and_eq_true, beq_iff_eq, ih bs, List.cons_append,
        List.cons.injEq]
      constructor
      · rintro ⟨rfl, t, rfl⟩
        exact ⟨t, rfl, rfl⟩
      · rintro ⟨t, rfl, rfl⟩
        exact ⟨rfl, t, rfl⟩

theorem matchMarker_one (t : List Char) : matchMarker ('[' :: '1' :: ']' :: t) = some t := rfl

theorem findMarker_isSome_cons {c : Char} {rest : List Char}
    (h : (findMarker rest).isSome = true) : (findMarker (c :: rest)).isSome = true := by
  obtain ⟨x, hx⟩ := Option.isSome_iff_exists.mp h
  cases hm : matchMarker (c :: rest) with
  | some tail => simp [findMarker, hm]
  | none =>
    cases x with
    | mk pre tail => simp [findMarker, hm, hx]

theorem findMarker_of_containsSub :
    ∀ l : List Char, containsSub "[1]".data l = true → (findMarker l).isSome = true := by
  intro l
  induction l with
  | nil =>
    intro h
    exact absurd h (by decide)
  | cons c rest ih =>
    intro h
    simp only [containsSub, Bool.or_eq_true] at h
    rcases h with h | h
    · obtain ⟨t, ht⟩ := (isPre_iff _ _).mp h
      have ht2 : c :: rest = '[' :: '1' :: ']' :: t := ht
      rw [ht2]
      simp [findMarker, matchMarker_one]
    · exact findMarker_isSome_cons (ih h)

theorem parseSegment_requires_fields {item : String} {p : ShopeeProduct}
    (h : parseSegment item = some p) :
    (searchCapture namaProdukLabel (fun x => x != ';') item.data).isSome = true ∧
    (searchCapture namaVariasiLabel (fun x => x != ';') item.data).isSome = true ∧
    (searchCapture jumlahLabel Char.isDigit item.data).isSome = true := by
  unfold parseSegment at h
  cases h1 : searchCapture namaProdukLabel (fun x => x != ';') item.data with
  | none => rw [h1] at h; cases h
  | some np =>
    cases h2 : searchCapture namaVariasiLabel (fun x => x != ';') item.data with
    | none => rw [h1, h2] at h; cases h
    | some nv =>
      cases h3 : searchCapture jumlahLabel Char.isDigit item.data with
      | none => rw [h1, h2, h3] at h; cases h
      | some ds => simp [h1, h2, h3]

theorem parseSegment_of_fields {item : String}
    (h1 : (searchCapture namaProdukLabel (fun x => x != ';') item.data).isSome = true)
    (h2 : (searchCapture namaVariasiLabel (fun x => x != ';') item.data).isSome = true)
    (h3 : (searchCapture jumlahLabel Char.isDigit item.data).isSome = true) :
    (parseSegment item).isSome = true := by
  obtain ⟨np, hnp⟩ := Option.isSome_iff_exists.mp h1
  obtain ⟨nv, hnv⟩ := Option.isSome_iff_exists.mp h2
  obtain ⟨ds, hds⟩ := Option.isSome_iff_exists.mp h3
  unfold parseSegment
  rw [hnp, hnv, hds]
  rfl

theorem parseSegment_jumlah_nonneg {item : String} {p : ShopeeProduct}
    (h : parseSegment item = some p) : 0 ≤ p.jumlah := by
  unfold parseSegment at h
  cases h1 : searchCapture namaProdukLabel (fun x => x != ';') item.data with
  | none => rw [h1] at h; cases h
  | some np =>
    cases h2 : searchCapture namaVariasiLabel (fun x => x != ';') item.data with
    | none => rw [h1, h2] at h; cases h
    | some nv =>
      cases h3 : searchCapture jumlahLabel Char.isDigit item.data with
      | none => rw [h1, h2, h3] at h; cases h
      | some ds =>
        rw [h1, h2, h3] at h
        have hp : p.jumlah = ((digitsVal ds : Nat) : Int) := by
          cases h
          rfl
        rw [hp]
        exact Int.natCast_nonneg _

theorem dropWhile_head_false (p : Char → Bool) :
    ∀ (l : List Char) {c : Char} {cs : List Char}, l.dropWhile p = c :: cs → p c = false := by
  intro l
  induction l with
  | nil => intro c cs h; cases h
  | cons a as ih =>
    intro c cs h
    rw [List.dropWhile_cons] at h
    by_cases hp : p a = true
    · rw [if_pos hp] at h
      exact ih h
    · rw [if_neg hp] at h
      cases h
      simpa using hp

theorem dropWhile_of_head_false {p : Char → Bool} :
    ∀ {x : List Char}, (∀ c, x.head? = some c → p c = false) → x.dropWhile p = x := by
  intro x h
  cases x with
  | nil => rfl
  | cons a as =>
    rw [List.dropWhile_cons, if_neg (by simp [h a rfl])]

theorem stripChars_head_false (p : Char → Bool) (l : List Char) :
    ∀ c, (stripChars p l).head? = some c → p c = false := by
  intro c hc
  unfold stripChars at hc
  rw [List.head?_reverse] at hc
  have h1 : ((l.dropWhile p).reverse).getLast? = some c := by
    conv_lhs => rw [← List.takeWhile_append_dropWhile p (l.dropWhile p).reverse]
    rw [List.getLast?_append, hc]
    rfl
  rw [List.getLast?_reverse] at h1
  cases hd : l.dropWhile p with
  | nil => rw [hd] at h1; cases h1
  | cons d0 ds =>
    rw [hd] at h1
    cases h1
    exact dropWhile_head_false p l hd

theorem stripChars_getLast_false (p : Char → Bool) (l : List Char) :
    ∀ c, (stripChars p l).getLast? = some c → p c = false := by
  intro c hc
  unfold stripChars at hc
  rw [List.getLast?_reverse] at hc
  cases hy : (l.dropWhile p).reverse.dropWhile p with
  | nil => rw [hy] at hc; cases hc
  | cons y0 ys =>
    rw [hy] at hc
    cases hc
    exact dropWhile_head_false p _ hy

theorem stripChars_idem (p : Char → Bool) (l : List Char) :
    stripChars p (stripChars p l) = stripChars p l := by
  have h1 : (stripChars p l).dropWhile p = stripChars p l :=
    dropWhile_of_head_false (fun c hc => stripChars_head_false p l c hc)
  have h2 : (stripChars p l).reverse.dropWhile p = (stripChars p l).reverse :=
    dropWhile_of_head_false (fun c hc => by
      rw [List.head?_reverse] at hc
      exact stripChars_getLast_false p l c hc)
  show ((((stripChars p l).dropWhile p).reverse).dropWhile p).reverse = stripChars p l
  rw [h1, h2, List.reverse_reverse]

theorem pyStrip_idem (s : String) : pyStrip (pyStrip s) = pyStrip s := by
  unfold pyStrip
  exact congrArg String.mk (stripChars_idem _ s.data)

theorem parseSegment_sku_trimmed {item : String} {p : ShopeeProduct}
    (h : parseSegment item = some p) : pyStrip p.sku = p.sku := by
  unfold parseSegment at h
  cases h1 : searchCapture namaProdukLabel (fun x => x != ';') item.data with
  | none => rw [h1] at h; cases h
  | some np =>
    cases h2 : searchCapture namaVariasiLabel (fun x => x != ';') item.data with
    | none => rw [h1, h2] at h; cases h
    | some nv =>
      cases h3 : searchCapture jumlahLabel Char.isDigit item.data with
      | none => rw [h1, h2, h3] at h; cases h
      | some ds =>
        rw [h1, h2, h3] at h
        cases hs : searchSku skuLabel item.data with
        | none =>
          rw [hs] at h
          cases h
          rfl
        | some g =>
          rw [hs] at h
          cases h
          exact pyStrip_idem _

theorem sum_partition_length {α β : Type} (rs : List (Sum α β)) :
    (rs.filterMap sumLeft).length + (rs.filterMap sumRight).length = rs.length := by
  induction rs with
  | nil => rfl
  | cons r rs ih =>
    cases r with
    | inl v =>
      simp only [List.filterMap_cons, sumLeft, sumRight, List.length_cons]
      omega
    | inr i =>
      simp only [List.filterMap_cons, sumLeft, sumRight, List.length_cons]
      omega

/-! ### Row-level helper facts -/

theorem aggregate_row_qty (ls : List ValidLine) :
    ∀ r ∈ aggregate_valid ls, r.qty = totalQty ls (keyOf r) := by
  intro r hr
  unfold aggregate_valid at hr
  obtain ⟨k, hk, rfl⟩ := List.mem_map.mp hr
  simp [keyOf]

theorem merge_batch_eq_aggregate (dfs : List (List ValidLine)) :
    merge_batch dfs = aggregate_valid dfs.flatten := by
  unfold merge_batch
  rw [sortValidBySku_aggregate]

/-! ### Claim theorems -/

/-- C1 counterexample: classification performs no trimming of its own, and
TikTok's cleaning (`str(x).strip().strip("'")`) can emit untrimmed SKUs:
the SKU cell `"' a'"` cleans to `" a"`, whose trimmed form `"a"` is a key
of the catalog `{"a": "Widget"}`, yet the row is classified Invalid because
the untrimmed string `" a"` is looked up — refuting the claim that a line
whose SKU is, as a trimmed string, a catalog key classifies Valid. -/
theorem tiktok_untrimmed_sku_lookup :
    tiktokCleanSku (.str "' a'") = " a" ∧
    pyStrip " a" = "a" ∧
    is_valid_sku [("a", "Widget")] "a" = true ∧
    is_valid_sku [("a", "Widget")] " a" = false ∧
    tiktokRow [("a", "Widget")]
      [.str "", .str "", .str "", .str "", .str "", .str "",
       .str "' a'", .str "P", .str "V", .str "2"] = .inr ⟨.str "P", .str "V", 2⟩ := by decide

/-- C1 amended: classification compares the line's SKU exactly as the parser
produced it, with no further trimming.  A Shopee product classifies Valid
iff its SKU is non-empty and a catalog key, with resolved name taken from
the catalog — never the raw file's own product-name text — and Invalid
(carrying product name, variant name and quantity, never the SKU) iff the
SKU is empty or not a key; a TikTok row classifies Valid iff its cleaned
SKU is a key and Invalid otherwise.  Shopee's parser always emits trimmed
SKUs, so for Shopee this coincides with the original trimmed-string
criterion; TikTok's quote-stripping can emit untrimmed SKUs, which are
looked up untrimmed. -/
theorem classifier_exact_sku (db : Catalog) :
    (∀ p : ShopeeProduct,
      (¬p.sku = "" → is_valid_sku db p.sku = true →
        classifyShopee db p = .inl ⟨p.sku, get_product_name db p.sku, p.jumlah⟩) ∧
      (p.sku = "" ∨ is_valid_sku db p.sku = false →
        classifyShopee db p = .inr ⟨p.nama_produk, p.nama_variasi, p.jumlah⟩)) ∧
    (∀ (sku : String) (nama variasi : Cell) (j : Int),
      (is_valid_sku db sku = true →
        tiktokClassify db sku nama variasi j = .inl ⟨sku, get_product_name db sku, j⟩) ∧
      (is_valid_sku db sku = false →
        tiktokClassify db sku nama variasi j = .inr ⟨nama, variasi, j⟩)) ∧
    (∀ (text : String) (p : ShopeeProduct), p ∈ parse_product_info text →
      pyStrip p.sku = p.sku) := by
  refine ⟨fun p => ⟨?_, ?_⟩, fun sku nama variasi j => ⟨?_, ?_⟩, ?_⟩
  · intro hne hv
    simp [classifyShopee, hne, hv]
  · intro hi
    rcases hi with he | hf
    · simp [classifyShopee, he]
    · simp [classifyShopee, hf]
  · intro hv
    simp [tiktokClassify, hv]
  · intro hf
    simp [tiktokClassify, hf]
  · intro text p hp
    obtain ⟨item, _, hps⟩ := List.mem_filterMap.mp hp
    exact parseSegment_sku_trimmed hps

theorem classifier_exact_sku_witness :
    classifyShopee [("A1", "Widget")] ⟨"Foo", "Var", 2, "A1"⟩
      = .inl ⟨"A1", get_product_name [("A1", "Widget")] "A1", 2⟩ ∧
    tiktokClassify [("A1", "Widget")] "A1" (.str "n") (.str "v") 3
      = .inl ⟨"A1", get_product_name [("A1", "Widget")] "A1", 3⟩ ∧
    classifyShopee [("A1", "Widget")] ⟨"Bar", "W", 1, ""⟩ = .inr ⟨"Bar", "W", 1⟩ ∧
    pyStrip (⟨"A", "V", 3, "S"⟩ : ShopeeProduct).sku
      = (⟨"A", "V", 3, "S"⟩ : ShopeeProduct).sku :=
  ⟨((classifier_exact_sku [("A1", "Widget")]).1 ⟨"Foo", "Var", 2, "A1"⟩).1
      (by decide) (by decide),
   ((classifier_exact_sku [("A1", "Widget")]).2.1 "A1" (.str "n") (.str "v") 3).1 (by decide),
   ((classifier_exact_sku [("A1", "Widget")]).1 ⟨"Bar", "W", 1, ""⟩).2 (Or.inl rfl),
   (classifier_exact_sku [("A1", "Widget")]).2.2
     "Nama Produk:A;Nama Variasi:V;Jumlah: 3;Nomor Referensi SKU: S;"
     ⟨"A", "V", 3, "S"⟩ (by decide)⟩

/-- C2: aggregation is idempotent under concatenation — aggregating the
concatenation of two lists of valid lines equals aggregating the
concatenation of their per-list aggregates — and the cross-file merge
(concatenate per-file summaries, regroup, sum, sort) therefore equals
aggregating all valid lines at once; in particular quantities 2 and 5 for
one catalog SKU in two files merge to a single row with total 7. -/
theorem aggregate_concat_merge :
    (∀ A B : List ValidLine,
      aggregate_valid (A ++ B) = aggregate_valid (aggregate_valid A ++ aggregate_valid B) ∧
      merge_batch [aggregate_valid A, aggregate_valid B] = aggregate_valid (A ++ B)) ∧
    merge_batch [aggregate_valid [⟨"A1", "Widget", 2⟩], aggregate_valid [⟨"A1", "Widget", 5⟩]]
      = [⟨"A1", "Widget", 7⟩] := by
  constructor
  · intro A B
    constructor
    · exact (aggregate_of_aggregates A B).symm
    · rw [merge_batch_eq_aggregate]
      have hf : ([aggregate_valid A, aggregate_valid B] : List (List ValidLine)).flatten
          = aggregate_valid A ++ aggregate_valid B := by
        simp
      rw [hf, aggregate_of_aggregates]
  · decide

/-- C3: every aggregated summary — per-file aggregate or cross-file merge —
has at most one row per (SKU, resolved name) pair, each row's total is the
sum of the quantities of the valid lines sharing that pair, and the rows
are sorted ascending by SKU under string comparison; in particular SKU
`"10"` sorts before `"9"` (lexicographic, not numeric). -/
theorem aggregate_summary_invariants :
    (∀ ls : List ValidLine,
      ((aggregate_valid ls).map keyOf).Nodup ∧
      (∀ r ∈ aggregate_valid ls, r.qty = totalQty ls (keyOf r)) ∧
      List.Sorted skuLeLine (aggregate_valid ls)) ∧
    (∀ dfs : List (List ValidLine),
      ((merge_batch dfs).map keyOf).Nodup ∧
      (∀ r ∈ merge_batch dfs, r.qty = totalQty dfs.flatten (keyOf r)) ∧
      List.Sorted skuLeLine (merge_batch dfs)) ∧
    aggregate_valid [⟨"9", "N", 1⟩, ⟨"10", "M", 2⟩] = [⟨"10", "M", 2⟩, ⟨"9", "N", 1⟩] := by
  refine ⟨fun ls => ⟨nodup_keys_aggregate ls, aggregate_row_qty ls, sorted_sku_aggregate ls⟩,
    fun dfs => ?_, by decide⟩
  rw [merge_batch_eq_aggregate]
  exact ⟨nodup_keys_aggregate _, aggregate_row_qty _, sorted_sku_aggregate _⟩

theorem aggregate_summary_invariants_witness :
    ((aggregate_valid [⟨"a", "n", 1⟩, ⟨"a", "n", 2⟩]).map keyOf).Nodup ∧
    (⟨"a", "n", 3⟩ : ValidLine).qty
      = totalQty [⟨"a", "n", 1⟩, ⟨"a", "n", 2⟩] (keyOf ⟨"a", "n", 3⟩) :=
  ⟨(aggregate_summary_invariants.1 [⟨"a", "n", 1⟩, ⟨"a", "n", 2⟩]).1,
   (aggregate_summary_invariants.1 [⟨"a", "n", 1⟩, ⟨"a", "n", 2⟩]).2.1
     ⟨"a", "n", 3⟩ (by decide)⟩

/-- C4 counterexample: a TikTok row whose quantity cell reads `"-3"` is kept
and classified with quantity `-3`, which is negative — the claim's
"non-negative integer" invariant fails on the code (and Tokopedia performs
no coercion at all, see the amended theorem). -/
theorem tiktok_negative_quantity :
    tiktokRow [] [.str "", .str "", .str "", .str "", .str "", .str "",
      .str "", .str "P", .str "V", .str "-3"] = .inr ⟨.str "P", .str "V", -3⟩ ∧
    ¬(0 ≤ (-3 : Int)) := by decide

/-- C4 amended: Shopee lines always carry a non-negative integer quantity
(the digits-only pattern); TikTok classifies every row into exactly one
record — an uncoercible quantity coerces to 0 and never drops the line,
though negative numeric values pass through; Tokopedia passes the quantity
cell through unchanged with no coercion on either branch. -/
theorem quantity_per_platform :
    (∀ (text : String) (p : ShopeeProduct), p ∈ parse_product_info text → 0 ≤ p.jumlah) ∧
    (∀ (db : Catalog) (file : List (List Cell)),
      (tiktokProcess db file).1.length + (tiktokProcess db file).2.length
        = (file.drop 2).length) ∧
    (∀ c : Cell, toNumericOpt c = none → tiktokJumlah c = 0) ∧
    (∀ (db : Catalog) (sc nc jc : Cell), tokoJumlahOf (tokoClassify db sc nc jc) = jc) := by
  refine ⟨?_, ?_, ?_, ?_⟩
  · intro text p hp
    obtain ⟨item, _, hps⟩ := List.mem_filterMap.mp hp
    exact parseSegment_jumlah_nonneg hps
  · intro db file
    unfold tiktokProcess
    simp only [sortValidBySku, List.length_insertionSort]
    have h := sum_partition_length ((file.drop 2).map (tiktokRow db))
    rw [List.length_map] at h
    exact h
  · intro c h
    unfold tiktokJumlah
    rw [h]
    rfl
  · intro db sc nc jc
    by_cases h : is_valid_sku db (tokoCleanSku sc) = true
    · simp [tokoClassify, tokoJumlahOf, h]
    · simp [tokoClassify, tokoJumlahOf, h]

theorem quantity_per_platform_witness :
    0 ≤ (⟨"A", "V", 3, "S"⟩ : ShopeeProduct).jumlah ∧ tiktokJumlah (.str "zz") = 0 :=
  ⟨quantity_per_platform.1 "Nama Produk:A;Nama Variasi:V;Jumlah: 3;Nomor Referensi SKU: S;"
      ⟨"A", "V", 3, "S"⟩ (by decide),
   quantity_per_platform.2.2.1 (.str "zz") (by decide)⟩

set_option maxRecDepth 16384 in
/-- C5 counterexample: a text in which the bracketed numeric marker pattern
occurs (as `[2]`, `[3]`) but the literal `[1]` does not is NOT split — the
code checks `"[1]" in text`, not the marker pattern — so a two-item
annotation without `[1]` parses as a single item, while splitting as the
claim states would yield two. -/
theorem split_requires_literal_marker_one :
    (findMarker ("[2]Nama Produk:A;Nama Variasi:V;Jumlah: 1;Nomor Referensi SKU: S;[3]Nama Produk:B;Nama Variasi:W;Jumlah: 2;Nomor Referensi SKU: T;").data).isSome = true ∧
    splitItems "[2]Nama Produk:A;Nama Variasi:V;Jumlah: 1;Nomor Referensi SKU: S;[3]Nama Produk:B;Nama Variasi:W;Jumlah: 2;Nomor Referensi SKU: T;" = ["[2]Nama Produk:A;Nama Variasi:V;Jumlah: 1;Nomor Referensi SKU: S;[3]Nama Produk:B;Nama Variasi:W;Jumlah: 2;Nomor Referensi SKU: T;"] ∧
    splitItemsSpec "[2]Nama Produk:A;Nama Variasi:V;Jumlah: 1;Nomor Referensi SKU: S;[3]Nama Produk:B;Nama Variasi:W;Jumlah: 2;Nomor Referensi SKU: T;" ≠ splitItems "[2]Nama Produk:A;Nama Variasi:V;Jumlah: 1;Nomor Referensi SKU: S;[3]Nama Produk:B;Nama Variasi:W;Jumlah: 2;Nomor Referensi SKU: T;" ∧
    (parse_product_info "[2]Nama Produk:A;Nama Variasi:V;Jumlah: 1;Nomor Referensi SKU: S;[3]Nama Produk:B;Nama Variasi:W;Jumlah: 2;Nomor Referensi SKU: T;").length = 1 := by decide

/-- C5 amended: splitting happens exactly when the literal substring `[1]`
occurs in the text; whenever it does occur — and also whenever no marker
occurs at all — the code's behaviour coincides with the specification's
split-on-any-marker rule, the divergence arising only for texts containing
some marker but not `[1]`. -/
theorem split_items_agreement (text : String)
    (h : containsSub "[1]".data text.data = true ∨ (findMarker text.data).isSome = false) :
    splitItems text = splitItemsSpec text := by
  rcases h with h | h
  · have h2 := findMarker_of_containsSub text.data h
    simp [splitItems, splitItemsSpec, h, h2]
  · have h2 : containsSub "[1]".data text.data = false := by
      cases hc : containsSub "[1]".data text.data
      · rfl
      · rw [findMarker_of_containsSub text.data hc] at h
        cases h
    simp [splitItems, splitItemsSpec, h, h2]

theorem split_items_agreement_witness :
    splitItems "[1]a[2]b" = splitItemsSpec "[1]a[2]b" :=
  split_items_agreement "[1]a[2]b" (Or.inl (by decide))

/-- C6 counterexample: `is_valid_sku` compares the SKU exactly as given, with
no trimming: with catalog `{"A1": "Widget"}` the query `" A1"` returns
false although its trimmed form `"A1"` is a key, contradicting the claim
that validity holds iff the trimmed SKU is a key. -/
theorem is_valid_sku_untrimmed :
    is_valid_sku [("A1", "Widget")] " A1" = false ∧
    pyStrip " A1" = "A1" ∧
    is_valid_sku [("A1", "Widget")] (pyStrip " A1") = true := by decide

/-- C6 amended: `is_valid_sku` returns true iff the SKU string exactly as
given is a key of the catalog (string comparison, no numeric coercion, no
trimming inside the query); for the already-trimmed SKUs every caller
passes, this coincides with "the trimmed SKU is a key". -/
theorem is_valid_sku_key_membership :
    (∀ (db : Catalog) (sku : String),
      is_valid_sku db sku = true ↔ sku ∈ db.map Prod.fst) ∧
    (∀ (db : Catalog) (sku : String), pyStrip sku = sku →
      (is_valid_sku db sku = true ↔ pyStrip sku ∈ db.map Prod.fst)) := by
  have h1 : ∀ (db : Catalog) (sku : String),
      is_valid_sku db sku = true ↔ sku ∈ db.map Prod.fst := by
    intro db sku
    simp [is_valid_sku, dbLookup, List.find?_isSome, List.mem_map, beq_iff_eq]
  exact ⟨h1, fun db sku hs => by rw [hs]; exact h1 db sku⟩

theorem is_valid_sku_key_membership_witness :
    is_valid_sku [("A1", "Widget")] "A1" = true :=
  (is_valid_sku_key_membership.2 [("A1", "Widget")] "A1" (by decide)).mpr (by decide)

/-- C7: TikTok SKU cleaning stringifies, strips whitespace, then strips
wrapping apostrophes, so `"'12345"` cleans to `"12345"`; the quantity cell
is numerically coerced with default 0 on failure or absence (`"abc"` gives
0), and the final quantity is the truncated integer part of the numeric
value (e.g. 2.7 gives 2, -2.7 gives -2). -/
theorem tiktok_cleaning_and_coercion :
    tiktokCleanSku (.str "'12345") = "12345" ∧
    (∀ s : String, tiktokCleanSku (.str s) = stripQuotes (pyStrip s)) ∧
    tiktokJumlah (.str "abc") = 0 ∧
    (∀ c : Cell, toNumericOpt c = none → tiktokJumlah c = 0) ∧
    (∀ (c : Cell) (d : Dec), toNumericOpt c = some d → tiktokJumlah c = truncDec d) ∧
    tiktokJumlah (.num ⟨27, 1⟩) = 2 ∧ tiktokJumlah (.num ⟨-27, 1⟩) = -2 := by
  refine ⟨by decide, fun s => rfl, by decide, ?_, ?_, by decide, by decide⟩
  · intro c h
    unfold tiktokJumlah
    rw [h]
    rfl
  · intro c d h
    unfold tiktokJumlah
    rw [h]
    rfl

theorem tiktok_cleaning_and_coercion_witness :
    tiktokJumlah (.str "x7") = 0 ∧ tiktokJumlah (.num ⟨5, 0⟩) = truncDec ⟨5, 0⟩ :=
  ⟨tiktok_cleaning_and_coercion.2.2.2.1 (.str "x7") (by decide),
   tiktok_cleaning_and_coercion.2.2.2.2.1 (.num ⟨5, 0⟩) ⟨5, 0⟩ (by decide)⟩

/-- C8: when loading the catalog's backing source fails, the system
continues with an empty catalog rather than aborting, and under the empty
catalog every SKU — empty or not — fails validation, so every line of every
platform classifies as Invalid. -/
theorem empty_catalog_fail_open :
    (∀ e : String, initDatabase (.error e) = []) ∧
    (∀ sku : String, is_valid_sku [] sku = false) ∧
    (∀ p : ShopeeProduct,
      classifyShopee [] p = .inr ⟨p.nama_produk, p.nama_variasi, p.jumlah⟩) ∧
    (∀ (sku : String) (nama variasi : Cell) (j : Int),
      tiktokClassify [] sku nama variasi j = .inr ⟨nama, variasi, j⟩) ∧
    (∀ sc nc jc : Cell, tokoClassify [] sc nc jc = .inr ⟨nc, jc⟩) := by
  refine ⟨fun e => rfl, fun sku => rfl, ?_, ?_, ?_⟩
  · intro p
    simp [classifyShopee, is_valid_sku, dbLookup]
  · intro sku nama variasi j
    simp [tiktokClassify, is_valid_sku, dbLookup]
  · intro sc nc jc
    simp [tokoClassify, is_valid_sku, dbLookup]

/-- C9: a Shopee segment yields a raw order line exactly when the
product-name, variant-name and quantity patterns all match (the SKU capture
being optional); the quantity label demands exactly one space before the
digits — no space or two spaces yields no line — while the SKU label
matches with zero or one space before its value. -/
theorem shopee_segment_field_requirements :
    (∀ (item : String) (p : ShopeeProduct), parseSegment item = some p →
      (searchCapture namaProdukLabel (fun x => x != ';') item.data).isSome = true ∧
      (searchCapture namaVariasiLabel (fun x => x != ';') item.data).isSome = true ∧
      (searchCapture jumlahLabel Char.isDigit item.data).isSome = true) ∧
    (∀ item : String,
      (searchCapture namaProdukLabel (fun x => x != ';') item.data).isSome = true →
      (searchCapture namaVariasiLabel (fun x => x != ';') item.data).isSome = true →
      (searchCapture jumlahLabel Char.isDigit item.data).isSome = true →
      (parseSegment item).isSome = true) ∧
    parseSegment "Nama Produk:A;Nama Variasi:V;Jumlah:3;Nomor Referensi SKU: S;" = none ∧
    parseSegment "Nama Produk:A;Nama Variasi:V;Jumlah:  3;Nomor Referensi SKU: S;" = none ∧
    parseSegment "Nama Produk:A;Nama Variasi:V;Jumlah: 3;Nomor Referensi SKU:S;"
      = some ⟨"A", "V", 3, "S"⟩ ∧
    parseSegment "Nama Produk:A;Nama Variasi:V;Jumlah: 3;Nomor Referensi SKU: S;"
      = some ⟨"A", "V", 3, "S"⟩ ∧
    parseSegment "Nama Produk:A;Nama Variasi:V;Jumlah: 3;" = some ⟨"A", "V", 3, ""⟩ :=
  ⟨fun _ _ h => parseSegment_requires_fields h,
   fun _ h1 h2 h3 => parseSegment_of_fields h1 h2 h3,
   by decide, by decide, by decide, by decide, by decide⟩

theorem shopee_segment_field_requirements_witness :
    (searchCapture jumlahLabel Char.isDigit
      ("Nama Produk:A;Nama Variasi:V;Jumlah: 3;").data).isSome = true ∧
    (parseSegment "Nama Produk:A;Nama Variasi:V;Jumlah: 3;").isSome = true :=
  ⟨(shopee_segment_field_requirements.1 "Nama Produk:A;Nama Variasi:V;Jumlah: 3;"
      ⟨"A", "V", 3, ""⟩ (by decide)).2.2,
   shopee_segment_field_requirements.2.1 "Nama Produk:A;Nama Variasi:V;Jumlah: 3;"
     (by decide) (by decide) (by decide)⟩

/-- C10: TikTok processing turns every spreadsheet row after the two
discarded metadata rows into exactly one classified record — valid and
invalid counts always sum to the row count, no row is skipped — and a
completely blank row (ten cells read as empty strings, NA filtering
disabled) yields an Invalid record with empty product name and quantity 0
whenever the catalog has no empty-string key. -/
theorem tiktok_row_totality :
    (∀ (db : Catalog) (file : List (List Cell)),
      (tiktokProcess db file).1.length + (tiktokProcess db file).2.length
        = (file.drop 2).length) ∧
    (∀ db : Catalog, is_valid_sku db "" = false →
      tiktokRow db (List.replicate 10 (Cell.str "")) = .inr ⟨.str "", .str "", 0⟩) := by
  constructor
  · intro db file
    unfold tiktokProcess
    simp only [sortValidBySku, List.length_insertionSort]
    have h := sum_partition_length ((file.drop 2).map (tiktokRow db))
    rw [List.length_map] at h
    exact h
  · intro db hdb
    have hr : tiktokRow db (List.replicate 10 (Cell.str ""))
        = tiktokClassify db "" (.str "") (.str "") 0 := rfl
    rw [hr]
    simp [tiktokClassify, hdb]

theorem tiktok_row_totality_witness :
    tiktokRow [] (List.replicate 10 (Cell.str "")) = .inr ⟨.str "", .str "", 0⟩ :=
  tiktok_row_totality.2 [] (by decide)

end OrderProcessor